import Mathlib

/-!
# Library Manager — shallow embedding

A shallow embedding of the core state and operations of
`src/libraryManager_x86.py` (a PyQt library-management application).

Modelling conventions:
* Python `int` is `Int`; Python `//` and `%` are `Int.fdiv` / `Int.fmod`
  (floor division, sign of divisor), matching Python semantics.
* Stored dates (`loan_date`, `due_date`, `return_date`) are modelled as
  integer day numbers: the code stores `YYYY-MM-DD` strings and converts
  through `datetime.date`, where adding a `timedelta(days = d)` adds `d`
  and subtracting two dates yields their day difference.  `today` is an
  explicit parameter of each operation that reads the clock.
* Optional dict keys read through `.get` with a default are modelled as
  `Option` fields (absent = `none`) or as the default value where the key
  is always written before being read (`renewed`).
* UI concerns (tables, combos, dialogs) are parameters: the selected
  member/book/loan and the values chosen in dialogs are arguments of the
  corresponding operation; message boxes are dropped.  The branch taken
  when a confirmation dialog is cancelled leaves the store unchanged and
  is not modelled separately.
-/

/-- Member record (`add_member`, line 1024): all five fields are strings. -/
structure Member where
  student_id : String
  national_id : String
  phone : String
  first_name : String
  last_name : String
  deriving DecidableEq

/-- Book record (`add_book`, line 1135). -/
structure Book where
  id : String
  title : String
  author : String
  publish_date : String
  total_copies : Int
  available_copies : Int
  is_borrowed : Bool
  deriving DecidableEq

/-- Loan record (`loan_book`, lines 1319–1328).  `renewed` is absent until
`renew_loan` writes it and is only ever read with default `False`, so it is
modelled as a `Bool` that `loan_book` initialises to `false`; `fine_paid`
and `unpaid_fine` are absent until `return_book` writes them. -/
structure Loan where
  id : Int
  member_id : String
  book_id : String
  book_title : String
  loan_date : Int
  due_date : Int
  return_date : Option Int
  loan_period : Int
  renewed : Bool := false
  fine_paid : Option Bool := none
  unpaid_fine : Option Int := none
  deriving DecidableEq

/-- `self.settings` (line 67): both keys are always present (the initial
dict has them and `load_data` only updates). -/
structure Settings where
  default_loan_period : Int
  fine_per_day : Int
  deriving DecidableEq

/-- The in-memory store of the application (lines 64–67). -/
structure Store where
  members : List Member
  books : List Book
  loans : List Loan
  settings : Settings
  deriving DecidableEq

/-- In-place mutation of the first list element found by a `next(...)`
lookup: Python mutates the dict object returned by `next`, i.e. the first
element satisfying the predicate; the rest of the list is untouched. -/
def updateFirst (p : α → Bool) (f : α → α) : List α → List α
  | [] => []
  | x :: xs => if p x then f x :: xs else x :: updateFirst p f xs

theorem mem_updateFirst {p : α → Bool} {f : α → α} :
    ∀ {xs : List α} {y : α}, y ∈ updateFirst p f xs →
      y ∈ xs ∨ ∃ x, x ∈ xs ∧ y = f x := by
  intro xs
  induction xs with
  | nil => intro y h; simp [updateFirst] at h
  | cons a as ih =>
    intro y h
    cases hpa : p a with
    | true =>
      simp only [updateFirst, hpa, if_true, List.mem_cons] at h
      rcases h with h1 | h1
      · exact Or.inr ⟨a, List.mem_cons_self a as, h1⟩
      · exact Or.inl (List.mem_cons_of_mem a h1)
    | false =>
      simp [updateFirst, hpa] at h
      rcases h with h1 | h1
      · exact Or.inl (h1 ▸ List.mem_cons_self a as)
      · rcases ih h1 with h2 | ⟨x, hx, hy⟩
        · exact Or.inl (List.mem_cons_of_mem a h2)
        · exact Or.inr ⟨x, List.mem_cons_of_mem a hx, hy⟩

theorem find?_updateFirst {p : α → Bool} {f : α → α} :
    ∀ {xs : List α} {x : α}, xs.find? p = some x → p (f x) = true →
      (updateFirst p f xs).find? p = some (f x) := by
  intro xs
  induction xs with
  | nil => intro x h _; simp [List.find?] at h
  | cons a as ih =>
    intro x h hfx
    cases hpa : p a with
    | true =>
      rw [List.find?_cons_of_pos _ hpa] at h
      cases h
      have h1 : updateFirst p f (a :: as) = f a :: as := by
        simp [updateFirst, hpa]
      rw [h1]
      exact List.find?_cons_of_pos _ hfx
    | false =>
      have hpa' : ¬ p a = true := by simp [hpa]
      rw [List.find?_cons_of_neg _ hpa'] at h
      have h1 : updateFirst p f (a :: as) = a :: updateFirst p f as := by
        simp [updateFirst, hpa]
      rw [h1, List.find?_cons_of_neg _ hpa']
      exact ih h hfx

theorem find?_append_of_none {p : α → Bool} :
    ∀ (xs : List α), xs.find? p = none → ∀ ys : List α,
      (xs ++ ys).find? p = ys.find? p := by
  intro xs
  induction xs with
  | nil => intro _ ys; simp
  | cons a as ih =>
    intro h ys
    cases hpa : p a with
    | true =>
      rw [List.find?_cons_of_pos _ hpa] at h
      exact absurd h (by simp)
    | false =>
      have hpa' : ¬ p a = true := by simp [hpa]
      rw [List.find?_cons_of_neg _ hpa'] at h
      rw [List.cons_append, List.find?_cons_of_neg _ hpa']
      exact ih h ys

theorem updateFirst_append_of_none {p : α → Bool} {f : α → α} :
    ∀ (xs : List α), xs.find? p = none → ∀ ys : List α,
      updateFirst p f (xs ++ ys) = xs ++ updateFirst p f ys := by
  intro xs
  induction xs with
  | nil => intro _ ys; simp
  | cons a as ih =>
    intro h ys
    cases hpa : p a with
    | true =>
      rw [List.find?_cons_of_pos _ hpa] at h
      exact absurd h (by simp)
    | false =>
      have hpa' : ¬ p a = true := by simp [hpa]
      rw [List.find?_cons_of_neg _ hpa'] at h
      have h1 : updateFirst p f ((a :: as) ++ ys) = a :: updateFirst p f (as ++ ys) := by
        simp [updateFirst, hpa]
      rw [h1, ih h ys]
      simp

/-- Python `str.strip()`: drop whitespace from both ends. -/
def pyStrip (cs : List Char) : List Char :=
  ((cs.dropWhile Char.isWhitespace).reverse.dropWhile Char.isWhitespace).reverse

/-- Python `str.replace(a, b)` for the single-character patterns the
source uses: every occurrence of `a` becomes `b`. -/
def pyReplaceChar (a b : Char) (cs : List Char) : List Char :=
  cs.map (fun c => if c = a then b else c)

/-- Python `str.split(sep)` for a single-character separator:
`"".split('-') == [""]`, and each separator occurrence opens a new
field. -/
def splitOnCharAux (sep : Char) : List Char → List Char → List (List Char)
  | [], acc => [acc.reverse]
  | c :: cs, acc =>
    if c = sep then acc.reverse :: splitOnCharAux sep cs []
    else splitOnCharAux sep cs (c :: acc)

def pySplitChar (sep : Char) (cs : List Char) : List (List Char) :=
  splitOnCharAux sep cs []

/-- Digit run to a number: one or more ASCII decimal digits. -/
def digitsVal? (cs : List Char) : Option Nat :=
  if cs.isEmpty then none
  else
    cs.foldl
      (fun acc c =>
        match acc with
        | none => none
        | some n => if c.isDigit then some (n * 10 + (c.toNat - 48)) else none)
      (some 0)

/-- Python `int(s)` for a string: optional surrounding whitespace, an
optional sign, then digits; anything else raises `ValueError` (`none`).
(Digit-group underscores accepted by Python are not modelled; no
statement below depends on them.) -/
def pyInt? (cs : List Char) : Option Int :=
  match pyStrip cs with
  | '+' :: ds => (digitsVal? ds).map (fun n => (n : Int))
  | '-' :: ds => (digitsVal? ds).map (fun n => -(n : Int))
  | ds => (digitsVal? ds).map (fun n => (n : Int))

def isGregLeap (y : Int) : Bool :=
  (y.fmod 4 == 0 && y.fmod 100 != 0) || y.fmod 400 == 0

def gregMonthLen (y m : Int) : Int :=
  if m = 2 then (if isGregLeap y then 29 else 28)
  else if m = 4 ∨ m = 6 ∨ m = 9 ∨ m = 11 then 30
  else 31

/-- Validity check performed by `datetime.date(y, m, d)` (raises
`ValueError` outside these bounds; `MINYEAR = 1`, `MAXYEAR = 9999`). -/
def validGregorian (y m d : Int) : Bool :=
  decide (1 ≤ y ∧ y ≤ 9999 ∧ 1 ≤ m ∧ m ≤ 12 ∧ 1 ≤ d ∧ d ≤ gregMonthLen y m)

/-- Cumulative day counts before each Gregorian month. -/
def g_d_m : List Int := [0, 31, 59, 90, 120, 151, 181, 212, 243, 273, 304, 334]

/-- The standard Gregorian→Jalali conversion used by the `jdatetime`
library (`//` and `%` are Python floor division/modulo, here `fdiv` and
`fmod`). -/
def gregorianToJalali (gy gm gd : Int) : Int × Int × Int :=
  let start := if gy > 1600 then ((979 : Int), gy - 1600) else ((0 : Int), gy - 621)
  let jy0 := start.1
  let gy1 := start.2
  let gy2 := if gm > 2 then gy1 + 1 else gy1
  let days :=
    365 * gy1 + (gy2 + 3).fdiv 4 - (gy2 + 99).fdiv 100 + (gy2 + 399).fdiv 400
      - 80 + gd + ((g_d_m.get? (gm - 1).toNat).getD 0)
  let jy1 := jy0 + 33 * (days.fdiv 12053)
  let days1 := days.fmod 12053
  let jy2 := jy1 + 4 * (days1.fdiv 1461)
  let days2 := days1.fmod 1461
  let step := if days2 > 365 then (jy2 + (days2 - 1).fdiv 365, (days2 - 1).fmod 365)
              else (jy2, days2)
  let jy3 := step.1
  let days3 := step.2
  if days3 < 186 then (jy3, 1 + days3.fdiv 31, 1 + days3.fmod 31)
  else (jy3, 7 + (days3 - 186).fdiv 30, 1 + (days3 - 186).fmod 30)

/-- Zero-padded decimal rendering of a non-negative number (`strftime`
pads `%Y` to 4 and `%m`, `%d` to 2). -/
def padNum (width : Nat) (n : Int) : String :=
  let s := Nat.repr n.toNat
  String.mk (List.replicate (width - s.length) '0') ++ s

/-- `to_jalali` (lines 19–28).  The happy path calls
`jdatetime.date.fromgregorian`, an external library function: it
validates the Gregorian date exactly as `datetime.date` does, applies the
standard conversion, and rejects Jalali years below the library minimum
of 1; each of those failures raises and is caught by the same `except`
branch as a parse failure, which returns `date_str` itself. -/
def to_jalali (date_str : String) : String :=
  if date_str = "" then "-"
  else
    match (pySplitChar '-' date_str.toList).map pyInt? with
    | [some y, some m, some d] =>
      if validGregorian y m d then
        match gregorianToJalali y m d with
        | (jy, jm, jd) =>
          if jy < 1 then date_str
          else padNum 4 jy ++ "/" ++ padNum 2 jm ++ "/" ++ padNum 2 jd
      else date_str
    | _ => date_str

/-- Book id derivation in `add_book` (line 1129): all spaces replaced by
underscores. -/
def bookIdOf (title author publish : String) : String :=
  String.mk (pyReplaceChar ' ' '_' (title ++ "_" ++ author ++ "_" ++ publish).toList)

/-- `add_book` (lines 1124–1139), with the stripped text-field reads as
parameters (`copies` comes from a spin box with range 1–1000).  Empty
title or author aborts with a warning; an existing book with the derived
id is merged by incrementing both copy counts; otherwise a new book is
appended with `available_copies = total_copies = copies`. -/
def add_book (s : Store) (title author publish : String) (copies : Int) : Store :=
  if title = "" ∨ author = "" then s
  else
    let book_id := bookIdOf title author publish
    match s.books.find? (fun b => b.id == book_id) with
    | some _ =>
      let books' := updateFirst (fun b => b.id == book_id)
        (fun b => { b with total_copies := b.total_copies + copies,
                           available_copies := b.available_copies + copies })
        s.books
      { s with books := books' }
    | none =>
      let newBook : Book :=
        { id := book_id, title := title, author := author,
          publish_date := publish, total_copies := copies,
          available_copies := copies, is_borrowed := false }
      { s with books := s.books ++ [newBook] }

/-- The mutation `loan_book` performs on the loaned book dict
(lines 1330–1333): availability clamped at 0 by `max(0, ... - 1)`, and
`is_borrowed` set when it hits 0. -/
def issueBookUpd (b : Book) : Book :=
  let b1 := { b with available_copies := max 0 (b.available_copies - 1) }
  if b1.available_copies == 0 then { b1 with is_borrowed := true } else b1

/-- `loan_book` (lines 1277–1348): `member_id`/`book_id` come from the
combos (the empty string is the placeholder row, rejected with a
warning), `period` from the loan-period dialog (accepted path; a
cancelled dialog leaves the store unchanged and is not modelled).  The
new loan id is `len(self.loans) + 1`; this function performs no
availability precondition check (the book combo merely omits books with
`available_copies == 0`). -/
def loan_book (s : Store) (member_id book_id : String) (period today : Int) : Store :=
  if member_id = "" ∨ book_id = "" then s
  else
    let book? := s.books.find? (fun b => b.id == book_id)
    let loan : Loan :=
      { id := (s.loans.length : Int) + 1
        member_id := member_id
        book_id := book_id
        book_title := match book? with | some b => b.title | none => book_id
        loan_date := today
        due_date := today + period
        return_date := none
        loan_period := period }
    let books' :=
      match book? with
      | some _ => updateFirst (fun b => b.id == book_id) issueBookUpd s.books
      | none => s.books
    { s with books := books', loans := s.loans ++ [loan] }

/-- The mutation `return_book` performs on the found loan dict
(lines 1459–1483): `return_date := today`, then the fine outcome chosen
in the settlement dialog (`settle` is the pay-now button; with no fine
the dialog is skipped). -/
def returnLoanUpd (today fine : Int) (settle : Bool) (l : Loan) : Loan :=
  let l1 := { l with return_date := some today }
  if fine > 0 then
    if settle then { l1 with fine_paid := some true, unpaid_fine := some 0 }
    else { l1 with fine_paid := some false, unpaid_fine := some fine }
  else { l1 with fine_paid := some true, unpaid_fine := some 0 }

/-- The mutation `return_book` performs on the returned book dict
(lines 1487–1491): increment with no cap at `total_copies`, and
`is_borrowed` cleared while positive. -/
def returnBookUpd (b : Book) : Book :=
  let b1 := { b with available_copies := b.available_copies + 1 }
  if b1.available_copies > 0 then { b1 with is_borrowed := false } else b1

/-- `return_book` (lines 1441–1498): the selected row supplies `loan_id`;
a missing loan warns and leaves the store unchanged.  The book lookup
uses the loan's stored `book_id`; when no book matches, the catalog is
untouched. -/
def return_book (s : Store) (loan_id today : Int) (settle : Bool) : Store :=
  match s.loans.find? (fun l => l.id == loan_id) with
  | none => s
  | some loan =>
    let days_overdue : Int := if today > loan.due_date then today - loan.due_date else 0
    let fine := days_overdue * s.settings.fine_per_day
    let loans' := updateFirst (fun l => l.id == loan_id)
      (returnLoanUpd today fine settle) s.loans
    let books' :=
      match s.books.find? (fun b => b.id == loan.book_id) with
      | none => s.books
      | some _ => updateFirst (fun b => b.id == loan.book_id) returnBookUpd s.books
    { s with loans := loans', books := books' }

/-- `renew_loan` (lines 1387–1439): the selected row supplies `loan_id`,
the accepted dialog supplies `days` (spin range 1–365); a missing loan
warns and leaves the store unchanged. -/
def renew_loan (s : Store) (loan_id days : Int) : Store :=
  match s.loans.find? (fun l => l.id == loan_id) with
  | none => s
  | some _ =>
    let loans' := updateFirst (fun l => l.id == loan_id)
      (fun l => { l with due_date := l.due_date + days, renewed := true,
                         loan_period := l.loan_period + days })
      s.loans
    { s with loans := loans' }

/-- The inner `save_book` closure of `edit_book` (lines 1233–1256),
acting on the selected book dict.  Mirrors the order of the source: the
`book.update(...)` runs first, so the subsequent
`diff = new_total - book.get("total_copies", 0)` reads the
already-updated total (hence always `new_total`), and the id-recompute
condition compares `new_title`/`new_author` against the already-updated
fields. -/
def save_book (book : Book) (new_title new_author new_pub : String)
    (new_total : Int) : Book :=
  let book1 := { book with title := new_title, author := new_author,
                           publish_date := new_pub, total_copies := new_total }
  let diff := new_total - book1.total_copies
  let book2 := { book1 with available_copies := max 0 (book1.available_copies + diff) }
  if new_title ≠ book2.title ∨ new_author ≠ book2.author then
    { book2 with id := String.mk (pyReplaceChar ' ' '_' (new_title ++ "_" ++ new_author).toList) }
  else book2

/-- Persian/Arabic character normalisation used by `edit_book`'s row
lookup (lines 1163–1170). -/
def normalize_text (text : String) : String :=
  String.mk (pyStrip (pyReplaceChar 'ۂ' 'ه'
    (pyReplaceChar 'ك' 'ک' (pyReplaceChar 'ي' 'ی' text.toList))))

/-- `edit_book` (lines 1148–1262): the selected table row supplies
`selected_title`/`selected_author`; the book dict is found by normalised
title, falling back to normalised title+author; the dialog supplies the
new field values, applied to the found dict by `save_book`.  No match
warns and leaves the store unchanged. -/
def edit_book (s : Store) (selected_title selected_author : String)
    (new_title new_author new_pub : String) (new_total : Int) : Store :=
  let nst := normalize_text selected_title
  let p1 : Book → Bool := fun b => normalize_text b.title == nst
  match s.books.find? p1 with
  | some _ =>
    let books' := updateFirst p1
      (fun b => save_book b new_title new_author new_pub new_total) s.books
    { s with books := books' }
  | none =>
    let nsa := normalize_text selected_author
    let p2 : Book → Bool := fun b =>
      normalize_text b.title == nst && !(nsa == "") && normalize_text b.author == nsa
    match s.books.find? p2 with
    | some _ =>
      let books' := updateFirst p2
        (fun b => save_book b new_title new_author new_pub new_total) s.books
      { s with books := books' }
    | none => s

/-- The two settings keys as they can appear in a persisted document's
`settings` value; `dict.update` merge semantics: an absent key keeps the
in-memory value. -/
structure SettingsPatch where
  default_loan_period : Option Int
  fine_per_day : Option Int
  deriving DecidableEq

def applyPatch (st : Settings) (p : SettingsPatch) : Settings :=
  { default_loan_period := p.default_loan_period.getD st.default_loan_period
    fine_per_day := p.fine_per_day.getD st.fine_per_day }

/-- The `settings` value of a document: `bad` makes
`self.settings.update(...)` raise (a non-dict value); `ok p` merges the
patch. -/
inductive DocSettings where
  | ok (p : SettingsPatch)
  | bad
  deriving DecidableEq

/-- A persisted document as `load_data`/`restore_backup` consume it.
`malformedJson`: `json.load` raises.  `nonDict`: the parsed value is not
a dict, so the first `d.get` raises `AttributeError` before any
assignment.  `record ms bs ls dset`: a dict, where `ms`/`bs`/`ls` are
the results of the three `d.get(..., [])` reads (a missing key already
yields the `[]` default) and `dset` is the `settings` value. -/
inductive Doc where
  | malformedJson
  | nonDict
  | record (ms : List Member) (bs : List Book) (ls : List Loan) (dset : DocSettings)
  deriving DecidableEq

/-- `load_data` (lines 861–871): nothing happens when the file is absent;
all statements sit in a single `try`, the four assignments run in order,
and the `except` branch only shows a warning — so a failure raised by
`settings.update` leaves the already-executed member/book/loan
assignments committed. -/
def load_data (s : Store) (fileExists : Bool) (d : Doc) : Store :=
  if !fileExists then s
  else
    match d with
    | .malformedJson => s
    | .nonDict => s
    | .record ms bs ls dset =>
      match dset with
      | .ok p => { members := ms, books := bs, loans := ls,
                   settings := applyPatch s.settings p }
      | .bad => { s with members := ms, books := bs, loans := ls }

/-- `restore_backup` (lines 1640–1649): reads a caller-chosen file of the
same document shape with the same sequential-assignment pattern as
`load_data` (a cancelled file dialog, not modelled, leaves the store
unchanged); errors are caught and shown after any already-executed
assignments, and the happy path re-saves to the primary file. -/
def restore_backup (s : Store) (d : Doc) : Store :=
  match d with
  | .malformedJson => s
  | .nonDict => s
  | .record ms bs ls dset =>
    match dset with
    | .ok p => { members := ms, books := bs, loans := ls,
                 settings := applyPatch s.settings p }
    | .bad => { s with members := ms, books := bs, loans := ls }

/-- Lower half of the spec's book invariant: non-negative availability. -/
def bookLB (s : Store) : Prop :=
  ∀ b ∈ s.books, 0 ≤ b.available_copies

/-- The spec's book invariant: `0 ≤ available_copies ≤ total_copies`. -/
def bookInv (s : Store) : Prop :=
  ∀ b ∈ s.books, 0 ≤ b.available_copies ∧ b.available_copies ≤ b.total_copies

theorem issueBookUpd_id (b : Book) : (issueBookUpd b).id = b.id := by
  simp only [issueBookUpd]; split <;> rfl

theorem issueBookUpd_available (b : Book) :
    (issueBookUpd b).available_copies = max 0 (b.available_copies - 1) := by
  simp only [issueBookUpd]; split <;> rfl

theorem issueBookUpd_total (b : Book) :
    (issueBookUpd b).total_copies = b.total_copies := by
  simp only [issueBookUpd]; split <;> rfl

theorem returnBookUpd_id (b : Book) : (returnBookUpd b).id = b.id := by
  simp only [returnBookUpd]; split <;> rfl

theorem returnBookUpd_available (b : Book) :
    (returnBookUpd b).available_copies = b.available_copies + 1 := by
  simp only [returnBookUpd]; split <;> rfl

theorem returnLoanUpd_id (t fine : Int) (settle : Bool) (l : Loan) :
    (returnLoanUpd t fine settle l).id = l.id := by
  simp only [returnLoanUpd]; split <;> (try split) <;> rfl

theorem returnLoanUpd_return_date (t fine : Int) (settle : Bool) (l : Loan) :
    (returnLoanUpd t fine settle l).return_date = some t := by
  simp only [returnLoanUpd]; split <;> (try split) <;> rfl

theorem save_book_available_nonneg (b : Book) (nt na np : String) (ntot : Int) :
    0 ≤ (save_book b nt na np ntot).available_copies := by
  simp only [save_book]
  split
  · exact le_max_left _ _
  · exact le_max_left _ _

/-- Concrete member used in concrete instantiations. -/
def mAli : Member := ⟨"10000001", "0012345678", "0912000000", "Ali", "Ahmadi"⟩

/-- A fully lent-out single-copy book. -/
def bZero : Book :=
  { id := "B1", title := "T1", author := "A1", publish_date := "2020",
    total_copies := 1, available_copies := 0, is_borrowed := true }

/-- Store for the C2 counterexample: one member, one book with
`available_copies = 0`, no loans. -/
def storeC2 : Store :=
  { members := [mAli], books := [bZero], loans := [],
    settings := { default_loan_period := 14, fine_per_day := 1000 } }

/-- C9: the claim says a non-empty string that is not a well-formed
`YYYY-MM-DD` date maps to the placeholder `"-"`; evaluating the code at
the failing input `"abc"` shows the `except` branch returns the input
string unchanged (the function's own docstring promises `'-'`). -/
theorem to_jalali_malformed_returns_input :
    to_jalali "abc" = "abc" ∧ to_jalali "abc" ≠ "-" := by decide

/-- C4: evaluation at the failing input.  Editing a book with
`total_copies = 5, available_copies = 3` to `new_total = 10` leaves
`available_copies` at 3, because `book.update` runs before
`diff = new_total - book.get("total_copies", 0)`, making `diff` always 0;
the claim (and the spec) expect `3 + (10 - 5) = 8`. -/
theorem save_book_ignores_total_change :
    save_book { id := "T_A_2020", title := "T", author := "A",
                publish_date := "2020", total_copies := 5,
                available_copies := 3, is_borrowed := false }
        "T" "A" "2020" 10 =
      { id := "T_A_2020", title := "T", author := "A",
        publish_date := "2020", total_copies := 10,
        available_copies := 3, is_borrowed := false } := by decide

/-- C2 counterexample: issuing a loan on `storeC2`, whose only book has
`available_copies = 0`, appends a loan record (there is no capacity
error and the store does change), contradicting the claim. -/
theorem loan_book_zero_availability_appends :
    (loan_book storeC2 "10000001" "B1" 14 0).loans ≠ storeC2.loans ∧
    (loan_book storeC2 "10000001" "B1" 14 0).loans.length = 1 ∧
    storeC2.loans.length = 0 := by decide

/-- Prior in-memory state for the C7 counterexample. -/
def storeC7 : Store :=
  { members := [mAli], books := [], loans := [],
    settings := { default_loan_period := 14, fine_per_day := 1000 } }

/-- A malformed document for C7: valid JSON dict whose three collection
keys parse but whose `settings` value makes `settings.update` raise. -/
def docC7 : Doc :=
  .record [⟨"20000002", "0087654321", "0935000000", "Sara", "Karimi"⟩] [] [] .bad

/-- C7 counterexample: loading the malformed document `docC7` over the
prior state `storeC7` commits a partial mutation — `members` is replaced
by the document's members before the `settings.update` failure is
caught — so the prior in-memory state is not left unchanged. -/
theorem load_data_partial_mutation :
    load_data storeC7 true docC7 ≠ storeC7 ∧
    (load_data storeC7 true docC7).members =
      [⟨"20000002", "0087654321", "0935000000", "Sara", "Karimi"⟩] := by decide

/-- C7 amended: a document that fails JSON parsing, or parses to a
non-dict, leaves the whole prior state unchanged; but a dict document
whose `settings` value is malformed replaces members, books and loans
before the error is reported — that partial mutation is committed. -/
theorem load_data_error_state (s : Store) (ms : List Member) (bs : List Book)
    (ls : List Loan) :
    load_data s true Doc.malformedJson = s ∧
    load_data s true Doc.nonDict = s ∧
    load_data s true (Doc.record ms bs ls DocSettings.bad) =
      { s with members := ms, books := bs, loans := ls } :=
  ⟨rfl, rfl, rfl⟩

/-- A loan with id 2 as it could appear in an arbitrary well-formed
backup document. -/
def loanId2 : Loan :=
  { id := 2, member_id := "10000001", book_id := "B1", book_title := "T1",
    loan_date := 0, due_date := 14, return_date := none, loan_period := 14 }

/-- The empty initial store (line 64–67 defaults). -/
def emptyStore : Store :=
  { members := [], books := [], loans := [],
    settings := { default_loan_period := 14, fine_per_day := 1000 } }

/-- A store reached by restoring, into the empty store, a well-formed
backup holding a single loan whose id is 2. -/
def storeC8 : Store :=
  restore_backup emptyStore (.record [] [] [loanId2] (.ok ⟨none, none⟩))

/-- C8 counterexample: in the restored store `storeC8` (one loan, id 2),
`loan_book` assigns `len(loans) + 1 = 2` to the new loan — equal to an
existing id, so loan ids are neither distinct nor greater than all
existing ones. -/
theorem loan_book_id_collision :
    ((loan_book storeC8 "10000001" "B1" 14 0).loans.map Loan.id) = [2, 2] ∧
    ¬ ((loan_book storeC8 "10000001" "B1" 14 0).loans.map Loan.id).Nodup := by decide

/-- C2 amended: on a store whose (first) book with the selected id has
`available_copies = 0`, `loan_book` does not fail: it appends a loan
record and leaves that book's availability at 0 (via `max(0, 0 - 1)`);
no capacity error exists in the function — the UI merely omits
zero-availability books from the book combo. -/
theorem loan_book_zero_availability_no_error (s : Store) (mid bid : String)
    (p t : Int) (b : Book)
    (hmid : mid ≠ "") (hbid : bid ≠ "")
    (hfind : s.books.find? (fun b' => b'.id == bid) = some b)
    (h0 : b.available_copies = 0) :
    (loan_book s mid bid p t).loans =
      s.loans ++ [{ id := (s.loans.length : Int) + 1, member_id := mid,
                    book_id := bid, book_title := b.title, loan_date := t,
                    due_date := t + p, return_date := none, loan_period := p }] ∧
    ∃ b', (loan_book s mid bid p t).books.find? (fun b' => b'.id == bid) = some b' ∧
      b'.available_copies = 0 := by
  have hc : ¬ (mid = "" ∨ bid = "") := by
    intro h
    rcases h with h | h
    · exact hmid h
    · exact hbid h
  constructor
  · simp [loan_book, hc, hfind]
  · refine ⟨issueBookUpd b, ?_, ?_⟩
    · have hbooks : (loan_book s mid bid p t).books =
          updateFirst (fun b' => b'.id == bid) issueBookUpd s.books := by
        simp [loan_book, hc, hfind]
      rw [hbooks]
      refine find?_updateFirst hfind ?_
      have hpb : (fun b' => b'.id == bid) b = true :=
        @List.find?_some _ (fun b' => b'.id == bid) b s.books hfind
      rw [issueBookUpd_id]
      exact hpb
    · rw [issueBookUpd_available, h0]
      decide

/-- C2 amended, witnessed on the concrete store `storeC2`. -/
theorem loan_book_zero_availability_no_error_witness :
    storeC2.books.find? (fun b' => b'.id == "B1") = some bZero ∧
    bZero.available_copies = 0 ∧
    ((loan_book storeC2 "10000001" "B1" 14 0).loans =
      storeC2.loans ++ [{ id := (storeC2.loans.length : Int) + 1,
                          member_id := "10000001", book_id := "B1",
                          book_title := bZero.title, loan_date := 0,
                          due_date := 0 + 14, return_date := none,
                          loan_period := 14 }] ∧
     ∃ b', (loan_book storeC2 "10000001" "B1" 14 0).books.find?
        (fun b' => b'.id == "B1") = some b' ∧ b'.available_copies = 0) :=
  ⟨by decide, by decide,
    loan_book_zero_availability_no_error storeC2 "10000001" "B1" 14 0 bZero
      (by decide) (by decide) (by decide) (by decide)⟩

/-- C8 amended: in a store where every loan id is at most the loan count
(which holds in every state built from an empty loan list by the app's
own issue operation), the id `len(loans) + 1` that `loan_book` assigns
is strictly greater than — hence distinct from — every existing loan id;
after a restore of an arbitrary well-formed document this bound can
fail, and with it uniqueness (see the collision counterexample). -/
theorem loan_book_id_fresh (s : Store) (mid bid : String) (p t : Int)
    (hmid : mid ≠ "") (hbid : bid ≠ "")
    (hbound : ∀ l ∈ s.loans, l.id ≤ (s.loans.length : Int)) :
    ((loan_book s mid bid p t).loans.map Loan.id =
      s.loans.map Loan.id ++ [(s.loans.length : Int) + 1]) ∧
    ∀ l ∈ s.loans, l.id < (s.loans.length : Int) + 1 := by
  have hc : ¬ (mid = "" ∨ bid = "") := by
    intro h
    rcases h with h | h
    · exact hmid h
    · exact hbid h
  constructor
  · cases hf : s.books.find? (fun b' => b'.id == bid) with
    | none => simp [loan_book, hc, hf]
    | some b => simp [loan_book, hc, hf]
  · intro l hl
    have := hbound l hl
    omega

/-- C8 amended, witnessed on the restored one-loan store with id 1 (a
state whose ids do satisfy the count bound). -/
theorem loan_book_id_fresh_witness :
    (∀ l ∈ emptyStore.loans, l.id ≤ (emptyStore.loans.length : Int)) ∧
    ((loan_book emptyStore "10000001" "B1" 14 0).loans.map Loan.id =
      emptyStore.loans.map Loan.id ++ [(emptyStore.loans.length : Int) + 1]) ∧
    ∀ l ∈ emptyStore.loans, l.id < (emptyStore.loans.length : Int) + 1 :=
  ⟨by decide,
    loan_book_id_fresh emptyStore "10000001" "B1" 14 0
      (by decide) (by decide) (by decide)⟩

theorem loan_book_books_cases (s : Store) (mid bid : String) (p t : Int) :
    (loan_book s mid bid p t).books = s.books ∨
    (loan_book s mid bid p t).books =
      updateFirst (fun b => b.id == bid) issueBookUpd s.books := by
  by_cases hc : mid = "" ∨ bid = ""
  · left; simp [loan_book, hc]
  · cases hf : s.books.find? (fun b => b.id == bid) with
    | none => left; simp [loan_book, hc, hf]
    | some b => right; simp [loan_book, hc, hf]

theorem return_book_books_cases (s : Store) (lid t : Int) (settle : Bool) :
    (return_book s lid t settle).books = s.books ∨
    ∃ bid, (return_book s lid t settle).books =
      updateFirst (fun b => b.id == bid) returnBookUpd s.books := by
  cases hl : s.loans.find? (fun l => l.id == lid) with
  | none => left; simp [return_book, hl]
  | some loan =>
    cases hb : s.books.find? (fun b => b.id == loan.book_id) with
    | none => left; simp [return_book, hl, hb]
    | some b => right; exact ⟨loan.book_id, by simp [return_book, hl, hb]⟩

theorem edit_book_books_cases (s : Store) (st sa nt na np : String) (ntot : Int) :
    (edit_book s st sa nt na np ntot).books = s.books ∨
    ∃ q : Book → Bool, (edit_book s st sa nt na np ntot).books =
      updateFirst q (fun b => save_book b nt na np ntot) s.books := by
  unfold edit_book
  dsimp only
  split
  · right; exact ⟨_, rfl⟩
  · split
    · right; exact ⟨_, rfl⟩
    · left; rfl

theorem issueBookUpd_bounds {b : Book}
    (h : 0 ≤ b.available_copies ∧ b.available_copies ≤ b.total_copies) :
    0 ≤ (issueBookUpd b).available_copies ∧
      (issueBookUpd b).available_copies ≤ (issueBookUpd b).total_copies := by
  rw [issueBookUpd_available, issueBookUpd_total]
  constructor
  · exact le_max_left _ _
  · apply max_le <;> omega

/-- Store for the C1 counterexample: one book with five copies, all
available. -/
def storeC1 : Store :=
  { members := [],
    books := [{ id := "T1_A1_2020", title := "T1", author := "A1",
                publish_date := "2020", total_copies := 5,
                available_copies := 5, is_borrowed := false }],
    loans := [],
    settings := { default_loan_period := 14, fine_per_day := 1000 } }

/-- C1 counterexample: editing the five-copy fully-available book of
`storeC1` down to `total_copies = 1` leaves `available_copies = 5`
(the edit never changes it), so right after this edit-book operation
`available_copies ≤ total_copies` fails. -/
theorem edit_book_breaks_invariant :
    ¬ ∀ b ∈ (edit_book storeC1 "T1" "A1" "T1" "A1" "2020" 1).books,
        0 ≤ b.available_copies ∧ b.available_copies ≤ b.total_copies := by decide

/-- C1 amended: from a store satisfying `0 ≤ available ≤ total`,
loan-issue and add-copies (`add_book`; its copies spin box enforces
`1 ≤ copies`) preserve the full invariant, while return and edit-book
preserve only `0 ≤ available_copies`: `return_book` increments with no
cap at `total_copies`, and the edit leaves `available_copies` unchanged
while setting `total_copies`, so reducing the total below the
availability breaks the upper bound (see the counterexample). -/
theorem book_bounds_after_ops (s : Store)
    (mid bid title author publish st sa nt na np : String)
    (copies p t lid t2 ntot : Int) (settle : Bool)
    (hinv : bookInv s) (hcopies : 1 ≤ copies) :
    bookInv (loan_book s mid bid p t) ∧
    bookInv (add_book s title author publish copies) ∧
    bookLB (return_book s lid t2 settle) ∧
    bookLB (edit_book s st sa nt na np ntot) := by
  refine ⟨?_, ?_, ?_, ?_⟩
  · rcases loan_book_books_cases s mid bid p t with hcase | hcase
    · intro b hb; rw [hcase] at hb; exact hinv b hb
    · intro b hb
      rw [hcase] at hb
      rcases mem_updateFirst hb with h1 | ⟨x, hx, rfl⟩
      · exact hinv b h1
      · exact issueBookUpd_bounds (hinv x hx)
  · by_cases hc : title = "" ∨ author = ""
    · intro b hb
      rw [add_book, if_pos hc] at hb
      exact hinv b hb
    · cases hf : s.books.find? (fun b => b.id == bookIdOf title author publish) with
      | some b0 =>
        intro b hb
        have hbooks : (add_book s title author publish copies).books =
            updateFirst (fun b => b.id == bookIdOf title author publish)
              (fun b => { b with total_copies := b.total_copies + copies,
                                 available_copies := b.available_copies + copies })
              s.books := by
          simp [add_book, hc, hf]
        rw [hbooks] at hb
        rcases mem_updateFirst hb with h1 | ⟨x, hx, rfl⟩
        · exact hinv b h1
        · have h2 := hinv x hx
          refine ⟨?_, ?_⟩
          · show 0 ≤ x.available_copies + copies
            omega
          · show x.available_copies + copies ≤ x.total_copies + copies
            omega
      | none =>
        intro b hb
        have hbooks : (add_book s title author publish copies).books =
            s.books ++ [{ id := bookIdOf title author publish, title := title,
                          author := author, publish_date := publish,
                          total_copies := copies, available_copies := copies,
                          is_borrowed := false }] := by
          simp [add_book, hc, hf]
        rw [hbooks] at hb
        rcases List.mem_append.mp hb with h1 | h1
        · exact hinv b h1
        · rcases List.mem_singleton.mp h1 with rfl
          refine ⟨?_, ?_⟩
          · show (0 : Int) ≤ copies
            omega
          · show copies ≤ copies
            omega
  · rcases return_book_books_cases s lid t2 settle with hcase | ⟨bid2, hcase⟩
    · intro b hb; rw [hcase] at hb; exact (hinv b hb).1
    · intro b hb
      rw [hcase] at hb
      rcases mem_updateFirst hb with h1 | ⟨x, hx, rfl⟩
      · exact (hinv b h1).1
      · rw [returnBookUpd_available]
        have h2 := (hinv x hx).1
        omega
  · rcases edit_book_books_cases s st sa nt na np ntot with hcase | ⟨q, hcase⟩
    · intro b hb; rw [hcase] at hb; exact (hinv b hb).1
    · intro b hb
      rw [hcase] at hb
      rcases mem_updateFirst hb with h1 | ⟨x, hx, rfl⟩
      · exact (hinv b h1).1
      · exact save_book_available_nonneg x nt na np ntot

/-- C1 amended, witnessed on the concrete store `storeC2` (which
satisfies the invariant). -/
theorem book_bounds_after_ops_witness :
    bookInv storeC2 ∧ (1 : Int) ≤ 3 ∧
    (bookInv (loan_book storeC2 "10000001" "B1" 14 0) ∧
     bookInv (add_book storeC2 "T1" "A1" "2020" 3) ∧
     bookLB (return_book storeC2 1 0 true) ∧
     bookLB (edit_book storeC2 "T1" "A1" "T2" "A1" "2020" 4)) :=
  ⟨by unfold bookInv; decide, by decide,
    book_bounds_after_ops storeC2 "10000001" "B1" "T1" "A1" "2020" "T1" "A1"
      "T2" "A1" "2020" 3 14 0 1 0 4 true (by unfold bookInv; decide) (by decide)⟩

theorem returnLoanUpd_fine_paid_isSome (t fine : Int) (settle : Bool) (l : Loan) :
    (returnLoanUpd t fine settle l).fine_paid.isSome := by
  simp only [returnLoanUpd]
  split
  · split <;> rfl
  · rfl

theorem returnLoanUpd_unpaid_fine_isSome (t fine : Int) (settle : Bool) (l : Loan) :
    (returnLoanUpd t fine settle l).unpaid_fine.isSome := by
  simp only [returnLoanUpd]
  split
  · split <;> rfl
  · rfl

theorem return_book_loans (s : Store) (lid t : Int) (settle : Bool) (l : Loan)
    (hfind : s.loans.find? (fun l' => l'.id == lid) = some l) :
    (return_book s lid t settle).loans =
      updateFirst (fun l' => l'.id == lid)
        (returnLoanUpd t
          ((if t > l.due_date then t - l.due_date else 0) * s.settings.fine_per_day)
          settle)
        s.loans := by
  cases hb : s.books.find? (fun b => b.id == l.book_id) with
  | none => simp [return_book, hfind, hb]
  | some b0 => simp [return_book, hfind, hb]

/-- C3: returning an active loan (found by id) sets `return_date = today`
and records the fine outcome: with `days_overdue = max(0, today - due_date)`
and `fine = days_overdue * fine_per_day`, a zero fine always yields
`fine_paid = true, unpaid_fine = 0`; a positive fine with deferred
settlement yields `fine_paid = false, unpaid_fine = fine`; a positive
fine settled immediately yields `fine_paid = true, unpaid_fine = 0`. -/
theorem return_book_outcome (s : Store) (lid t : Int) (settle : Bool) (l : Loan)
    (hfind : s.loans.find? (fun l' => l'.id == lid) = some l)
    (hactive : l.return_date = none) :
    ∃ l', (return_book s lid t settle).loans.find? (fun l' => l'.id == lid) = some l' ∧
      l'.return_date = some t ∧
      (max 0 (t - l.due_date) * s.settings.fine_per_day = 0 →
        l'.fine_paid = some true ∧ l'.unpaid_fine = some 0) ∧
      (0 < max 0 (t - l.due_date) * s.settings.fine_per_day → settle = false →
        l'.fine_paid = some false ∧
          l'.unpaid_fine = some (max 0 (t - l.due_date) * s.settings.fine_per_day)) ∧
      (0 < max 0 (t - l.due_date) * s.settings.fine_per_day → settle = true →
        l'.fine_paid = some true ∧ l'.unpaid_fine = some 0) := by
  have hmax : (if t > l.due_date then t - l.due_date else 0) = max 0 (t - l.due_date) := by
    rcases le_or_lt t l.due_date with h | h
    · rw [if_neg (by omega), max_eq_left (by omega)]
    · rw [if_pos h, max_eq_right (by omega)]
  have hp : (fun l' => l'.id == lid) l = true :=
    @List.find?_some _ (fun l' => l'.id == lid) l s.loans hfind
  refine ⟨returnLoanUpd t
      ((if t > l.due_date then t - l.due_date else 0) * s.settings.fine_per_day)
      settle l, ?_, ?_, ?_, ?_, ?_⟩
  · rw [return_book_loans s lid t settle l hfind]
    refine find?_updateFirst hfind ?_
    rw [returnLoanUpd_id]
    exact hp
  · exact returnLoanUpd_return_date _ _ _ _
  · intro hf0
    rw [hmax]
    simp only [returnLoanUpd, hf0]
    simp
  · intro hfpos hsettle
    subst hsettle
    rw [hmax]
    simp only [returnLoanUpd]
    rw [if_pos hfpos]
    simp
  · intro hfpos hsettle
    subst hsettle
    rw [hmax]
    simp only [returnLoanUpd]
    rw [if_pos hfpos]
    simp

/-- Active loan used by the concrete witnesses: due on day 14. -/
def loanW : Loan :=
  { id := 1, member_id := "10000001", book_id := "B1", book_title := "T1",
    loan_date := 0, due_date := 14, return_date := none, loan_period := 14 }

/-- Concrete store with one active loan. -/
def storeC3 : Store :=
  { members := [mAli], books := [bZero], loans := [loanW],
    settings := { default_loan_period := 14, fine_per_day := 1000 } }

/-- C3 witnessed on `storeC3`: the loan is returned on day 20, six days
late, with deferred settlement. -/
theorem return_book_outcome_witness :
    storeC3.loans.find? (fun l' => l'.id == 1) = some loanW ∧
    loanW.return_date = none ∧
    (∃ l', (return_book storeC3 1 20 false).loans.find? (fun l' => l'.id == 1) = some l' ∧
      l'.return_date = some 20 ∧
      (max 0 (20 - loanW.due_date) * storeC3.settings.fine_per_day = 0 →
        l'.fine_paid = some true ∧ l'.unpaid_fine = some 0) ∧
      (0 < max 0 (20 - loanW.due_date) * storeC3.settings.fine_per_day →
        false = false →
        l'.fine_paid = some false ∧
          l'.unpaid_fine = some (max 0 (20 - loanW.due_date) * storeC3.settings.fine_per_day)) ∧
      (0 < max 0 (20 - loanW.due_date) * storeC3.settings.fine_per_day →
        false = true →
        l'.fine_paid = some true ∧ l'.unpaid_fine = some 0)) :=
  ⟨by decide, by decide,
    return_book_outcome storeC3 1 20 false loanW (by decide) (by decide)⟩

/-- C5: renewing an active loan adds exactly `d` days to its current
`due_date` — no reference to today appears, so an already-overdue loan
extends from its old due date — sets `renewed = true`, and adds `d` to
`loan_period`. -/
theorem renew_loan_extends (s : Store) (lid d : Int) (l : Loan)
    (hd : 1 ≤ d)
    (hfind : s.loans.find? (fun l' => l'.id == lid) = some l)
    (hactive : l.return_date = none) :
    (renew_loan s lid d).loans.find? (fun l' => l'.id == lid) =
      some { l with due_date := l.due_date + d, renewed := true,
                    loan_period := l.loan_period + d } := by
  have hloans : (renew_loan s lid d).loans =
      updateFirst (fun l' => l'.id == lid)
        (fun l' => { l' with due_date := l'.due_date + d, renewed := true,
                             loan_period := l'.loan_period + d }) s.loans := by
    simp [renew_loan, hfind]
  rw [hloans]
  refine find?_updateFirst hfind ?_
  exact @List.find?_some _ (fun l' => l'.id == lid) l s.loans hfind

/-- C5 witnessed on `storeC3`: a 7-day renewal of an active loan. -/
theorem renew_loan_extends_witness :
    (1 : Int) ≤ 7 ∧
    storeC3.loans.find? (fun l' => l'.id == 1) = some loanW ∧
    loanW.return_date = none ∧
    (renew_loan storeC3 1 7).loans.find? (fun l' => l'.id == 1) =
      some { loanW with due_date := loanW.due_date + 7, renewed := true,
                        loan_period := loanW.loan_period + 7 } :=
  ⟨by decide, by decide, by decide,
    renew_loan_extends storeC3 1 7 loanW (by decide) (by decide) (by decide)⟩

/-- C10: returning an active loan whose `book_id` matches no book in the
catalog still sets its `return_date` and writes both fine fields, and
the whole catalog — in particular every book's `available_copies` — is
unchanged. -/
theorem return_book_missing_book (s : Store) (lid t : Int) (settle : Bool) (l : Loan)
    (hfind : s.loans.find? (fun l' => l'.id == lid) = some l)
    (hactive : l.return_date = none)
    (hnob : s.books.find? (fun b => b.id == l.book_id) = none) :
    (return_book s lid t settle).books = s.books ∧
    ∃ l', (return_book s lid t settle).loans.find? (fun l' => l'.id == lid) = some l' ∧
      l'.return_date = some t ∧ l'.fine_paid.isSome ∧ l'.unpaid_fine.isSome := by
  constructor
  · simp [return_book, hfind, hnob]
  · refine ⟨returnLoanUpd t
        ((if t > l.due_date then t - l.due_date else 0) * s.settings.fine_per_day)
        settle l, ?_, ?_, ?_, ?_⟩
    · rw [return_book_loans s lid t settle l hfind]
      refine find?_updateFirst hfind ?_
      rw [returnLoanUpd_id]
      exact @List.find?_some _ (fun l' => l'.id == lid) l s.loans hfind
    · exact returnLoanUpd_return_date _ _ _ _
    · exact returnLoanUpd_fine_paid_isSome _ _ _ _
    · exact returnLoanUpd_unpaid_fine_isSome _ _ _ _

/-- An active loan pointing at a book id absent from the catalog. -/
def loanOrphan : Loan :=
  { id := 3, member_id := "10000001", book_id := "GONE", book_title := "Old",
    loan_date := 0, due_date := 14, return_date := none, loan_period := 14 }

/-- Concrete store for the C10 witness. -/
def storeC10 : Store :=
  { members := [mAli], books := [bZero], loans := [loanOrphan],
    settings := { default_loan_period := 14, fine_per_day := 1000 } }

/-- C10 witnessed on `storeC10`. -/
theorem return_book_missing_book_witness :
    storeC10.loans.find? (fun l' => l'.id == 3) = some loanOrphan ∧
    loanOrphan.return_date = none ∧
    storeC10.books.find? (fun b => b.id == loanOrphan.book_id) = none ∧
    ((return_book storeC10 3 20 true).books = storeC10.books ∧
     ∃ l', (return_book storeC10 3 20 true).loans.find? (fun l' => l'.id == 3) = some l' ∧
       l'.return_date = some 20 ∧ l'.fine_paid.isSome ∧ l'.unpaid_fine.isSome) :=
  ⟨by decide, by decide, by decide,
    return_book_missing_book storeC10 3 20 true loanOrphan
      (by decide) (by decide) (by decide)⟩

/-- C6: on a book with a positive availability, issuing a loan (which
decrements) and then returning that same loan (which increments via the
loan's stored `book_id`) restores the book's `available_copies` to its
pre-issue value.  The freshness hypothesis — no existing loan already
carries the id `len(loans) + 1` the issue will assign — holds in every
state the app builds itself and makes the return find the new loan. -/
theorem issue_then_return_restores (s : Store) (mid bid : String)
    (p t t2 : Int) (settle : Bool) (b : Book)
    (hmid : mid ≠ "") (hbid : bid ≠ "")
    (hb : s.books.find? (fun b' => b'.id == bid) = some b)
    (havail : 0 < b.available_copies)
    (hfresh : s.loans.find? (fun l => l.id == (s.loans.length : Int) + 1) = none) :
    ∃ b', (return_book (loan_book s mid bid p t) ((s.loans.length : Int) + 1) t2
        settle).books.find? (fun b' => b'.id == bid) = some b' ∧
      b'.available_copies = b.available_copies := by
  have hc : ¬ (mid = "" ∨ bid = "") := by
    intro h
    rcases h with h | h
    · exact hmid h
    · exact hbid h
  have hpb : (fun b' => b'.id == bid) b = true :=
    @List.find?_some _ (fun b' => b'.id == bid) b s.books hb
  have hbooks1 : (loan_book s mid bid p t).books =
      updateFirst (fun b' => b'.id == bid) issueBookUpd s.books := by
    simp [loan_book, hc, hb]
  have hloans1 : (loan_book s mid bid p t).loans =
      s.loans ++ [{ id := (s.loans.length : Int) + 1, member_id := mid,
                    book_id := bid, book_title := b.title, loan_date := t,
                    due_date := t + p, return_date := none, loan_period := p }] := by
    simp [loan_book, hc, hb]
  have hfind2 : (loan_book s mid bid p t).loans.find?
      (fun l => l.id == (s.loans.length : Int) + 1) =
      some { id := (s.loans.length : Int) + 1, member_id := mid,
             book_id := bid, book_title := b.title, loan_date := t,
             due_date := t + p, return_date := none, loan_period := p } := by
    rw [hloans1, find?_append_of_none _ hfresh]
    simp
  have hfindb1 : (loan_book s mid bid p t).books.find? (fun b' => b'.id == bid) =
      some (issueBookUpd b) := by
    rw [hbooks1]
    refine find?_updateFirst hb ?_
    rw [issueBookUpd_id]
    exact hpb
  have hbooks2 : (return_book (loan_book s mid bid p t)
        ((s.loans.length : Int) + 1) t2 settle).books =
      updateFirst (fun b' => b'.id == bid) returnBookUpd
        (loan_book s mid bid p t).books := by
    simp [return_book, hfind2, hfindb1]
  refine ⟨returnBookUpd (issueBookUpd b), ?_, ?_⟩
  · rw [hbooks2, hbooks1]
    refine find?_updateFirst ?_ ?_
    · rw [← hbooks1]
      exact hfindb1
    · rw [returnBookUpd_id, issueBookUpd_id]
      exact hpb
  · rw [returnBookUpd_available, issueBookUpd_available,
      max_eq_right (by omega : (0 : Int) ≤ b.available_copies - 1)]
    omega

/-- A two-copy fully available book for the C6 witness. -/
def bTwo : Book :=
  { id := "B2", title := "T2", author := "A2", publish_date := "2021",
    total_copies := 2, available_copies := 2, is_borrowed := false }

/-- Concrete store for the C6 witness. -/
def storeC6 : Store :=
  { members := [mAli], books := [bTwo], loans := [],
    settings := { default_loan_period := 14, fine_per_day := 1000 } }

/-- C6 witnessed on `storeC6`: borrow on day 0, return on day 20. -/
theorem issue_then_return_restores_witness :
    storeC6.books.find? (fun b' => b'.id == "B2") = some bTwo ∧
    0 < bTwo.available_copies ∧
    storeC6.loans.find? (fun l => l.id == (storeC6.loans.length : Int) + 1) = none ∧
    ∃ b', (return_book (loan_book storeC6 "10000001" "B2" 14 0)
        ((storeC6.loans.length : Int) + 1) 20 false).books.find?
        (fun b' => b'.id == "B2") = some b' ∧
      b'.available_copies = bTwo.available_copies :=
  ⟨by decide, by decide, by decide,
    issue_then_return_restores storeC6 "10000001" "B2" 14 0 20 false bTwo
      (by decide) (by decide) (by decide) (by decide) (by decide)⟩
